import Mathlib

/-!
Shallow embedding of `youtube_downloader.py` (class `YouTubeDownloader`).

The external extraction library (`yt_dlp.YoutubeDL.extract_info`) is an opaque
collaborator: each facade operation takes its outcome as an explicit argument
of type `Except String _` — `Except.error e` models the library raising an
exception whose textual description (Python `str(e)`) is `e`, and `Except.ok`
carries the metadata dictionary the library returned, modelled as a structure
whose `Option` fields stand for dictionary keys that may be absent
(`info.get(k)` is the field itself, `info.get(k, d)` is `Option.getD _ d`).

The filesystem seen by `create_zip` is modelled as a snapshot: a list of
filesystem objects, each a path (list of components) plus a kind.
-/

namespace YTD

/-- Kind of a filesystem object, as distinguished by `pathlib`.  A symbolic
link is classified by what it resolves to, since Python's `Path.is_file()`
follows symlinks. -/
inductive FileKind where
  | regular
  | directory
  | symlink_to_regular
  | symlink_to_directory
  | symlink_broken
  | special
deriving DecidableEq

/-- One filesystem object: its absolute path as a component list, and its kind. -/
structure FsEntry where
  path : List String
  kind : FileKind
deriving DecidableEq

/-- Embedding of Python's `Path.is_file()`: true for a regular file or a
symbolic link that resolves to a regular file, false otherwise. -/
def is_file (k : FileKind) : Bool :=
  match k with
  | .regular => true
  | .symlink_to_regular => true
  | _ => false

/-- Strict descendant test: `p` lies strictly below directory `folder`
(the folder's components are an initial segment of `p` and `p` is longer).
This is the set of paths yielded by `folder.rglob(str-star)`. -/
def strictlyUnder (folder p : List String) : Bool :=
  decide (p.take folder.length = folder) && decide (folder.length < p.length)

/-- Embedding of `folder.rglob` over a filesystem snapshot `fs`: every object
of the snapshot lying strictly below `folder`. -/
def rglob (fs : List FsEntry) (folder : List String) : List FsEntry :=
  fs.filter (fun e => strictlyUnder folder e.path)

/-- Embedding of `file.relative_to(folder.parent)`: drop the components of
the folder's parent, i.e. all but the last component of `folder`. -/
def relative_to_parent (folder p : List String) : List String :=
  p.drop (folder.length - 1)

/-- Embedding of `YouTubeDownloader.create_zip(folder_path, zip_name)`:
returns the path of the written archive (`download_path / zip_name.zip`) and
the list of stored entry paths, one per object below `folder` passing
`is_file`, each stored relative to the folder's parent. -/
def create_zip (download_path : String) (fs : List FsEntry) (folder : List String)
    (zip_name : String) : String × List (List String) :=
  (download_path ++ "/" ++ zip_name ++ ".zip",
    ((rglob fs folder).filter (fun e => is_file e.kind)).map
      (fun e => relative_to_parent folder e.path))

/-- Modelled from the spec's words (refinement comparator for the archive
claim): the entries are exactly the REGULAR files under the source folder —
symbolic links and special files skipped — stored relative to the folder's
parent. -/
def spec_zip_entries (fs : List FsEntry) (folder : List String) : List (List String) :=
  ((rglob fs folder).filter (fun e => decide (e.kind = FileKind.regular))).map
    (fun e => relative_to_parent folder e.path)

/-- Metadata dictionary returned by `extract_info` for a single video; fields
are the dictionary keys `get_video_info` reads. -/
structure VideoInfo where
  title : Option String
  duration : Option Nat
  uploader : Option String
  view_count : Option Nat
  thumbnail : Option String
  description : Option String
deriving DecidableEq

/-- The dictionary `get_video_info` returns on success. -/
structure VideoPreview where
  title : Option String
  duration : String
  uploader : Option String
  views : Nat
  thumbnail : Option String
  description : String
deriving DecidableEq

/-- Embedding of the Python format spec `n:02d`: the decimal numeral,
left-padded with zeros to a minimum width of two. -/
def format02d (n : Nat) : String :=
  String.mk (List.replicate (2 - (Nat.repr n).length) '0') ++ Nat.repr n

/-- Embedding of `YouTubeDownloader.get_video_info(url)`; `fetch` is the
outcome of `ydl.extract_info(url, download=False)`. -/
def get_video_info (fetch : Except String VideoInfo) : Option VideoPreview :=
  match fetch with
  | .error _ => none
  | .ok info =>
    let duration_min := info.duration.getD 0 / 60
    let duration_sec := info.duration.getD 0 % 60
    some
      { title := info.title
        duration := Nat.repr duration_min ++ ":" ++ format02d duration_sec
        uploader := info.uploader
        views := info.view_count.getD 0
        thumbnail := info.thumbnail
        description :=
          if (info.description.getD "").length > 300 then
            (info.description.getD "").take 300 ++ "..."
          else
            info.description.getD "" }

/-- Spec-side two-digit zero padding, written from the spec's words: seconds
zero-padded to two digits. -/
def spec_pad2 (n : Nat) : String :=
  if n < 10 then "0" ++ Nat.repr n else Nat.repr n

/-- Embedding of the Python string slice `s[:-1]`: every character of `s`
except the last (empty input stays empty). -/
def py_slice_to_neg1 (s : String) : String :=
  String.mk s.data.dropLast

/-- The `ydl_opts` dictionary built by `download_video`. -/
structure VideoYdlOpts where
  format : String
  outtmpl : String
  merge_output_format : String
deriving DecidableEq

/-- Options dictionary of `YouTubeDownloader.download_video(url, quality)`. -/
def download_video_ydl_opts (download_path quality : String) : VideoYdlOpts :=
  { format :=
      if quality = "best" then "bestvideo+bestaudio/best"
      else "bestvideo[height<=" ++ py_slice_to_neg1 quality ++ "]+bestaudio/best"
    outtmpl := download_path ++ "/" ++ "%(title)s.%(ext)s"
    merge_output_format := "mp4" }

/-- The `ydl_opts` dictionary built by `download_playlist` in its
`download_type == "video"` branch. -/
structure PlaylistVideoYdlOpts where
  format : String
  outtmpl : String
  merge_output_format : String
  ignoreerrors : Bool
deriving DecidableEq

/-- Options dictionary of `YouTubeDownloader.download_playlist` when
`download_type = "video"`. -/
def download_playlist_video_ydl_opts (download_path quality : String) : PlaylistVideoYdlOpts :=
  { format :=
      if quality = "best" then "bestvideo+bestaudio/best"
      else "bestvideo[height<=" ++ py_slice_to_neg1 quality ++ "]+bestaudio/best"
    outtmpl := download_path ++ "/" ++ "%(playlist)s/%(playlist_index)s - %(title)s.%(ext)s"
    merge_output_format := "mp4"
    ignoreerrors := true }

/-- Successful outcome of `extract_info(url, download=True)` for a single
item: the item's title, and the filename the tool itself reports
(`ydl.prepare_filename(info)`). -/
structure DownloadedItem where
  title : String
  prepared_filename : String
deriving DecidableEq

/-- Embedding of `YouTubeDownloader.download_video(url, quality)` after the
options are built; `fetch` is the outcome of `ydl.extract_info(url,
download=True)`.  Returns `(success, title-or-error-message, path-or-None)`. -/
def download_video (fetch : Except String DownloadedItem) :
    Bool × String × Option String :=
  match fetch with
  | .ok info => (true, info.title, some info.prepared_filename)
  | .error e => (false, e, none)

/-- Embedding of `YouTubeDownloader.download_audio(url, format)`; on success
the reported filename is computed as
`str(self.download_path / title.format)`, not read back from the tool. -/
def download_audio (download_path fmt : String) (fetch : Except String DownloadedItem) :
    Bool × String × Option String :=
  match fetch with
  | .ok info => (true, info.title, some (download_path ++ "/" ++ info.title ++ "." ++ fmt))
  | .error e => (false, e, none)

/-- One element of a playlist's `entries` list.  The `downloaded` flag is a
model-level record of whether the underlying tool managed to download this
item (with `ignoreerrors: True` the tool skips failed items and continues);
nothing in the facade's code reads it. -/
structure PlaylistEntry where
  title : Option String
  duration : Option Nat
  downloaded : Bool
deriving DecidableEq

/-- Metadata dictionary returned by `extract_info` for a playlist URL;
`entries = none` models a result dictionary with no `entries` key (e.g. the
URL resolved to a single item). -/
structure PlaylistInfo where
  title : Option String
  uploader : Option String
  entries : Option (List PlaylistEntry)
deriving DecidableEq

/-- Embedding of `YouTubeDownloader.download_playlist` after the options are
built; returns `(success, title-or-error-message, video_count,
folder-or-None)`. -/
def download_playlist (download_path : String) (fetch : Except String PlaylistInfo) :
    Bool × String × Nat × Option String :=
  match fetch with
  | .ok info =>
    let playlist_title := info.title.getD "playlist"
    let video_count := (info.entries.getD []).length
    let playlist_folder := download_path ++ "/" ++ playlist_title
    (true, playlist_title, video_count, some playlist_folder)
  | .error e => (false, e, 0, none)

/-- One item of the preview list built by `get_playlist_info`. -/
structure PlaylistPreviewItem where
  title : Option String
  duration : Option Nat
deriving DecidableEq

/-- The dictionary `get_playlist_info` returns when the result has an
`entries` key. -/
structure PlaylistPreview where
  title : Option String
  uploader : Option String
  video_count : Nat
  videos : List PlaylistPreviewItem
deriving DecidableEq

/-- Embedding of `YouTubeDownloader.get_playlist_info(url)`; `fetch` is the
outcome of `ydl.extract_info(url, download=False)` under `extract_flat`. -/
def get_playlist_info (fetch : Except String PlaylistInfo) : Option PlaylistPreview :=
  match fetch with
  | .error _ => none
  | .ok info =>
    match info.entries with
    | some es =>
      some
        { title := info.title
          uploader := info.uploader
          video_count := es.length
          videos := (es.take 10).map (fun entry =>
            { title := entry.title, duration := entry.duration }) }
    | none => none

/-! Concrete data used by witnesses and counterexamples. -/

/-- A playlist whose middle item failed to download (skipped under
`ignoreerrors`): three entries, two of them downloaded. -/
def mixed_playlist : List PlaylistEntry :=
  [{ title := some "a", duration := some 10, downloaded := true },
   { title := some "b", duration := some 20, downloaded := false },
   { title := some "c", duration := some 30, downloaded := true }]

/-- A source tree holding a single symbolic link that resolves to a regular
file (the link target lives outside the tree). -/
def symlink_fs : List FsEntry :=
  [{ path := ["src", "link"], kind := .symlink_to_regular }]

/-- A small source tree: two regular files (one nested), a subdirectory, and
an unrelated regular file outside the folder being archived. -/
def sample_fs : List FsEntry :=
  [{ path := ["d", "a.txt"], kind := .regular },
   { path := ["d", "sub"], kind := .directory },
   { path := ["d", "sub", "b.txt"], kind := .regular },
   { path := ["x", "c.txt"], kind := .regular }]

/-- A 301-character description. -/
def long_description : String :=
  String.mk (List.replicate 301 'a')

/-! Helper lemmas (shared). -/

/-- A nonempty string has positive length. -/
theorem len_pos_of_ne_empty (s : String) (h : s ≠ "") : 0 < s.length := by
  cases s with
  | mk data =>
    cases data with
    | nil => simp at h
    | cons c cs => simp [String.length]

/-- Appending the character p to any string never yields the word best. -/
theorem append_p_ne_best (s : String) : s ++ "p" ≠ "best" := by
  intro h
  have hd : (s ++ "p").data = "best".data := congrArg String.data h
  rw [String.data_append] at hd
  have hl : (s.data ++ ['p']).getLast? = ("best".data).getLast? := congrArg List.getLast? hd
  rw [List.getLast?_concat] at hl
  exact absurd hl (by decide)

/-- Dropping the last character of a string that ends in p recovers the rest. -/
theorem py_slice_append_p (s : String) : py_slice_to_neg1 (s ++ "p") = s := by
  cases s with
  | mk data =>
    show String.mk ((String.mk data ++ "p").data).dropLast = String.mk data
    rw [String.data_append, List.dropLast_concat]

/-- Below 60 the source's zero-padding and the spec's zero-padding agree. -/
theorem pad_bridge : ∀ m < 60, format02d m = spec_pad2 m := by decide

/-- Dropping the parent components of a nonempty folder from a path below
the folder leaves the folder's own name as the head. -/
theorem drop_parent_cons : ∀ (folder t : List String) (hne : folder ≠ []),
    (folder ++ t).drop (folder.length - 1) = folder.getLast hne :: t
  | [], _, hne => absurd rfl hne
  | [_], _, _ => rfl
  | _ :: y :: ys, t, _ => drop_parent_cons (y :: ys) t (by simp)

/-- Length of a double filter as a single count. -/
theorem length_filter_filter {α : Type} (A B : α → Bool) (l : List α) :
    ((l.filter A).filter B).length = l.countP (fun a => A a && B a) := by
  induction l with
  | nil => rfl
  | cons x xs ih =>
    cases hA : A x <;> cases hB : B x <;>
      simp [List.filter_cons, List.countP_cons, hA, hB, ih, -List.filter_filter]

/-! Claim theorems. -/

/-- C2 counterexample: the facade forwards the exception's textual
description verbatim, so an exception whose description is the empty string
yields success=false with an EMPTY message, refuting the claim that the
message is always non-empty. -/
theorem download_error_empty_message_counterexample :
    download_video (Except.error "") = (false, "", none)
    ∧ download_audio "downloads" "mp3" (Except.error "") = (false, "", none)
    ∧ ("" : String).length = 0 :=
  ⟨rfl, rfl, rfl⟩

/-- C2 (amended): whenever the underlying library raises, `download_video`
and `download_audio` return success=false, the exception's textual
description as the message, and a null output path — and the message is
non-empty whenever that description is non-empty.  Both operations are total
functions of the library outcome, so no raised fault crosses the facade
boundary. -/
theorem download_error_normalization (p f e : String) :
    download_video (Except.error e) = (false, e, none)
    ∧ download_audio p f (Except.error e) = (false, e, none)
    ∧ (e ≠ "" → 0 < (download_video (Except.error e)).2.1.length) := by
  refine ⟨rfl, rfl, fun h => ?_⟩
  exact len_pos_of_ne_empty e h

/-- C2 witness: the amended theorem applied at a concrete raising input. -/
theorem download_error_normalization_witness :
    download_video (Except.error "boom") = (false, "boom", none)
    ∧ ("boom" : String) ≠ ""
    ∧ 0 < (download_video (Except.error "boom")).2.1.length :=
  ⟨(download_error_normalization "downloads" "mp3" "boom").1, by decide,
    (download_error_normalization "downloads" "mp3" "boom").2.2 (by decide)⟩

/-- C3: in both `download_video` and `download_playlist` (video branch) the
quality selector best maps to the unrestricted format expression, and a
selector of the form digits-followed-by-p maps to the height-bounded
expression whose bound is the numeric prefix of the selector. -/
theorem quality_selector_translation (p s : String) (_hne : s ≠ "")
    (_hdig : ∀ c ∈ s.data, c.isDigit) :
    (download_video_ydl_opts p "best").format = "bestvideo+bestaudio/best"
    ∧ (download_playlist_video_ydl_opts p "best").format = "bestvideo+bestaudio/best"
    ∧ (download_video_ydl_opts p (s ++ "p")).format
        = "bestvideo[height<=" ++ s ++ "]+bestaudio/best"
    ∧ (download_playlist_video_ydl_opts p (s ++ "p")).format
        = "bestvideo[height<=" ++ s ++ "]+bestaudio/best" := by
  refine ⟨rfl, rfl, ?_, ?_⟩ <;>
    simp [download_video_ydl_opts, download_playlist_video_ydl_opts,
      append_p_ne_best s, py_slice_append_p s]

/-- C3 witness: the translation at the concrete selector 720p. -/
theorem quality_selector_translation_witness :
    (("720" : String) ≠ "" ∧ ∀ c ∈ ("720" : String).data, c.isDigit)
    ∧ (download_video_ydl_opts "downloads" "720p").format
        = "bestvideo[height<=720]+bestaudio/best" := by
  refine ⟨⟨by decide, by decide⟩, ?_⟩
  exact (quality_selector_translation "downloads" "720" (by decide) (by decide)).2.2.1

/-- C4: for every total-seconds duration S the preview's duration string is
the decimal of S/60, a colon, and S mod 60 zero-padded to two digits; in
particular 125 gives 2:05, 59 gives 0:59 and 0 gives 0:00. -/
theorem duration_formatting (t : Option String) (S : Nat) (u : Option String)
    (v : Option Nat) (th d : Option String) :
    (get_video_info (Except.ok ⟨t, some S, u, v, th, d⟩)).map (fun p => p.duration)
      = some (Nat.repr (S / 60) ++ ":" ++ spec_pad2 (S % 60))
    ∧ (get_video_info (Except.ok ⟨none, some 125, none, none, none, none⟩)).map
        (fun p => p.duration) = some "2:05"
    ∧ (get_video_info (Except.ok ⟨none, some 59, none, none, none, none⟩)).map
        (fun p => p.duration) = some "0:59"
    ∧ (get_video_info (Except.ok ⟨none, some 0, none, none, none, none⟩)).map
        (fun p => p.duration) = some "0:00" := by
  refine ⟨?_, by decide, by decide, by decide⟩
  simp only [get_video_info, Option.getD_some, Option.map_some]
  rw [pad_bridge (S % 60) (Nat.mod_lt S (by decide))]
  rfl

/-- C5: a description of at most 300 characters passes through unchanged
(including the exactly-300 boundary); a longer one is cut to its first 300
characters with an ellipsis appended. -/
theorem description_truncation (t : Option String) (S : Option Nat) (u : Option String)
    (v : Option Nat) (th : Option String) (d : String) :
    (d.length ≤ 300 →
      (get_video_info (Except.ok ⟨t, S, u, v, th, some d⟩)).map (fun p => p.description)
        = some d)
    ∧ (300 < d.length →
      (get_video_info (Except.ok ⟨t, S, u, v, th, some d⟩)).map (fun p => p.description)
        = some (d.take 300 ++ "...")) := by
  constructor
  · intro h
    have hno : ¬ (d.length > 300) := by omega
    simp [get_video_info, hno]
  · intro h
    have hyes : d.length > 300 := h
    simp [get_video_info, hyes]

/-- C5 witness: the theorem applied on both sides of the 300-character
boundary. -/
theorem description_truncation_witness :
    (("hi" : String).length ≤ 300
      ∧ (get_video_info (Except.ok ⟨none, none, none, none, none, some "hi"⟩)).map
          (fun p => p.description) = some "hi")
    ∧ (300 < long_description.length
      ∧ (get_video_info (Except.ok ⟨none, none, none, none, none,
            some long_description⟩)).map
          (fun p => p.description) = some (long_description.take 300 ++ "...")) := by
  constructor
  · exact ⟨by decide,
      (description_truncation none none none none none "hi").1 (by decide)⟩
  · have hlen : 300 < long_description.length := by
      have h301 : long_description.length = 301 := by
        show (List.replicate 301 'a').length = 301
        rw [List.length_replicate]
      omega
    exact ⟨hlen,
      (description_truncation none none none none none long_description).2 hlen⟩

/-- C6: the playlist preview's item list has exactly min 10 (number of
entries) elements, hence never more than 10. -/
theorem playlist_preview_cap (t u : Option String) (es : List PlaylistEntry) :
    (get_playlist_info (Except.ok ⟨t, u, some es⟩)).map (fun p => p.videos.length)
      = some (min 10 es.length)
    ∧ min 10 es.length ≤ 10 := by
  constructor
  · simp [get_playlist_info]
  · exact Nat.min_le_left _ _

/-- C7: on success `download_playlist` reports the length of the entries
list the tool returned — the collection's total entry count — not the number
of entries that actually downloaded: on a 3-entry playlist with one failed
item it reports 3 although only 2 downloaded. -/
theorem playlist_count_is_total (p : String) (t u : Option String)
    (es : List PlaylistEntry) :
    (download_playlist p (Except.ok ⟨t, u, some es⟩)).2.2.1 = es.length
    ∧ (download_playlist "downloads"
        (Except.ok ⟨some "pl", none, some mixed_playlist⟩)).2.2.1 = 3
    ∧ mixed_playlist.countP (fun en => en.downloaded) = 2
    ∧ (3 : Nat) ≠ 2 := by
  refine ⟨?_, by decide, by decide, by decide⟩
  simp [download_playlist]

/-- C8: on success `download_audio` reports the computed path
base/title.audioFormat; the result is independent of the filename the tool
itself reports (unlike `download_video`, which returns the tool-reported
filename). -/
theorem audio_path_computed (p fmt : String) (info : DownloadedItem)
    (t fn fn2 : String) :
    download_audio p fmt (Except.ok info)
      = (true, info.title, some (p ++ "/" ++ info.title ++ "." ++ fmt))
    ∧ download_audio p fmt (Except.ok ⟨t, fn⟩) = download_audio p fmt (Except.ok ⟨t, fn2⟩)
    ∧ download_video (Except.ok ⟨t, fn⟩) = (true, t, some fn) :=
  ⟨rfl, rfl, rfl⟩

/-- C9: whenever the underlying metadata query raises, `get_video_info`
returns the not-found signal, and the result does not depend on the failure
reason. -/
theorem video_info_error_to_none (e e2 : String) :
    get_video_info (Except.error e) = none
    ∧ get_video_info (Except.error e) = get_video_info (Except.error e2) :=
  ⟨rfl, rfl⟩

/-- C10: `get_playlist_info` returns the not-found signal both when the
query raises and when it succeeds with a result carrying no entries list. -/
theorem playlist_info_none_cases (e : String) (t u : Option String) :
    get_playlist_info (Except.error e) = none
    ∧ get_playlist_info (Except.ok ⟨t, u, none⟩) = none :=
  ⟨rfl, rfl⟩

/-- C1 counterexample: a tree whose only object is a symbolic link resolving
to a regular file.  It holds zero regular files, yet the produced archive
holds one entry (the link), refuting the claim that entries are exactly the
regular files with symbolic links skipped; `spec_zip_entries` is the
spec-side entry list, which is empty here. -/
theorem create_zip_symlink_counterexample :
    (create_zip "downloads" symlink_fs ["src"] "src").2 = [["src", "link"]]
    ∧ spec_zip_entries symlink_fs ["src"] = []
    ∧ symlink_fs.countP
        (fun e => strictlyUnder ["src"] e.path && decide (e.kind = FileKind.regular)) = 0
    ∧ (create_zip "downloads" symlink_fs ["src"] "src").2.length = 1 := by
  refine ⟨by decide, by decide, by decide, by decide⟩

/-- C1 (amended): the archive's entries are exactly the objects below the
source folder passing Python's is-file test (regular files and symbolic
links resolving to regular files; directories, broken or directory symlinks
and special files are skipped), each stored relative to the source folder's
parent; the entry count equals the count of such objects — so with no
symlinks present it equals the number of regular files; every stored path
starts with the source folder's name (top-level folder); an empty directory
yields a zero-entry archive. -/
theorem create_zip_entry_characterization (dp zn : String) (fs : List FsEntry)
    (folder : List String) :
    (∀ q, q ∈ (create_zip dp fs folder zn).2 ↔
        ∃ e, e ∈ fs ∧ strictlyUnder folder e.path = true ∧ is_file e.kind = true ∧
          q = relative_to_parent folder e.path)
    ∧ (create_zip dp fs folder zn).2.length
        = fs.countP (fun e => strictlyUnder folder e.path && is_file e.kind)
    ∧ ((∀ e ∈ fs, strictlyUnder folder e.path = true →
          e.kind ≠ FileKind.symlink_to_regular) →
        (create_zip dp fs folder zn).2.length
          = fs.countP (fun e =>
              strictlyUnder folder e.path && decide (e.kind = FileKind.regular)))
    ∧ (folder ≠ [] → ∀ q ∈ (create_zip dp fs folder zn).2, q.head? = folder.getLast?)
    ∧ ((∀ e ∈ fs, strictlyUnder folder e.path = false) →
        (create_zip dp fs folder zn).2 = []) := by
  have hlen : (create_zip dp fs folder zn).2.length
      = fs.countP (fun e => strictlyUnder folder e.path && is_file e.kind) := by
    have h := length_filter_filter (fun e : FsEntry => strictlyUnder folder e.path)
      (fun e : FsEntry => is_file e.kind) fs
    simpa [create_zip, rglob, List.length_map] using h
  refine ⟨?_, hlen, ?_, ?_, ?_⟩
  · intro q
    simp only [create_zip, rglob, List.mem_map, List.mem_filter]
    constructor
    · rintro ⟨e, ⟨⟨he, hA⟩, hB⟩, rfl⟩
      exact ⟨e, he, hA, hB, rfl⟩
    · rintro ⟨e, he, hA, hB, rfl⟩
      exact ⟨e, ⟨⟨he, hA⟩, hB⟩, rfl⟩
  · intro hnosym
    rw [hlen]
    refine List.countP_congr ?_
    intro e he
    cases hA : strictlyUnder folder e.path with
    | false => simp
    | true =>
      have hk := hnosym e he hA
      cases hkind : e.kind <;> simp_all [is_file]
  · intro hne q hq
    obtain ⟨e, ⟨⟨he, hA⟩, hB⟩, rfl⟩ := by
      simpa only [create_zip, rglob, List.mem_map, List.mem_filter] using hq
    have h1 : e.path.take folder.length = folder ∧ folder.length < e.path.length := by
      simpa [strictlyUnder] using hA
    have hsplit : folder ++ e.path.drop folder.length = e.path := by
      have h2 := List.take_append_drop folder.length e.path
      rw [h1.1] at h2
      exact h2
    have hcalc : relative_to_parent folder e.path
        = folder.getLast hne :: e.path.drop folder.length := by
      have hd := drop_parent_cons folder (e.path.drop folder.length) hne
      rw [hsplit] at hd
      exact hd
    rw [hcalc, List.getLast?_eq_getLast folder hne]
    rfl
  · intro hempty
    have h0 : fs.filter (fun e => strictlyUnder folder e.path) = [] :=
      List.filter_eq_nil_iff.mpr (fun e he => by simp [hempty e he])
    simp [create_zip, rglob, h0]

/-- C1 witness: the amended theorem applied to a concrete tree of two
regular files (one nested) plus a subdirectory and an unrelated outside
file. -/
theorem create_zip_entry_characterization_witness :
    (∀ e ∈ sample_fs, strictlyUnder ["d"] e.path = true →
      e.kind ≠ FileKind.symlink_to_regular)
    ∧ (create_zip "downloads" sample_fs ["d"] "d").2.length
        = sample_fs.countP (fun e =>
            strictlyUnder ["d"] e.path && decide (e.kind = FileKind.regular))
    ∧ (["d"] : List String) ≠ []
    ∧ (∀ q ∈ (create_zip "downloads" sample_fs ["d"] "d").2,
        q.head? = (["d"] : List String).getLast?) := by
  refine ⟨by decide,
    (create_zip_entry_characterization "downloads" "d" sample_fs ["d"]).2.2.1 (by decide),
    by decide,
    (create_zip_entry_characterization "downloads" "d" sample_fs ["d"]).2.2.2.1 (by decide)⟩

end YTD
